import Mathlib

/-!
Shallow embedding of the SWIR camera control client core (the `App`
component): connection lifecycle, command sending, inbound message
dispatch, telemetry throttling, recording buffer and diagnostics
counters.  React `useState`/`useRef` cells are modelled as fields of a
single `AppState` record; each event handler of the source becomes a
pure state-transition function.  `performance.now()` values are modelled
as natural numbers of milliseconds (the source compares them only with
`-` and `>`, and the clock is monotone).  Numeric JSON payloads
(temperatures, stats, histogram counts) are carried opaquely as `Int`:
the client performs no arithmetic on them.  The wall-clock prefix that
`addLog` puts in front of each log line is elided (it is pure
presentation and nondeterministic); the rest of each log line is kept
verbatim.
-/

namespace QAS

/-- The readyState of the underlying WebSocket object
(`websocket.current?.readyState`). -/
inductive ReadyState
  | CONNECTING
  | OPEN
  | CLOSING
  | CLOSED
deriving DecidableEq

/-- The `WsConnectionStatus` React state (`wsStatus`). -/
inductive WsConnectionStatus
  | CONNECTING
  | CONNECTED
  | DISCONNECTED
deriving DecidableEq

/-- A JSON object field that is independently optional and nullable:
it can be entirely absent (JS `undefined`), present with value `null`,
or present with a value. -/
inductive JField (α : Type)
  | absent
  | null
  | val (a : α)
deriving DecidableEq

/-- The optional `camera_info` record riding on `status_update` and
`image_frame` messages. -/
structure CameraInfo where
  temperature : JField Int
  integration_time_ms : JField Int
  frame_rate : JField Int
deriving DecidableEq

/-- The optional `stats` record of an `image_frame` message. -/
structure ImageStats where
  min : Int
  max : Int
  mean : Int
deriving DecidableEq

/-- Decoded inbound message, discriminated by its `type` field exactly as
in the `switch (message.type)` of `ws.onmessage`. -/
inductive ServerMessage
  | log (message : String)
  | status_update (status : Option String) (camera_info : Option CameraInfo)
  | image_frame (data : String) (source : Option String)
      (histogram : Option (List Int)) (stats : Option ImageStats)
      (camera_info : Option CameraInfo)
  | error (message : Option String)
  | unknown (ty : String)
deriving DecidableEq

/-- The source tag passed to `addLog`. -/
inductive LogSource
  | app
  | server
deriving DecidableEq

/-- The diagnostics snapshot React state (`diagnostics`), refreshed on the
1 Hz interval tick. -/
structure DiagSnapshot where
  totalMessages : Nat
  framesReceived : Nat
  statusUpdates : Nat
  lastRawMessage : String
deriving DecidableEq

/-- A scalar JSON value, as used in outbound command `params`.  All call
sites of `sendCommand` pass flat objects of scalars. -/
inductive JsonVal
  | str (s : String)
  | num (n : Int)
  | bool (b : Bool)
  | null
deriving DecidableEq

/-- The whole mutable state of the `App` component: every `useState` and
`useRef` cell the client core touches, plus `pendingReconnect`, which
models the single `setTimeout(connect, 5000)` timer scheduled by
`ws.onclose` (`some t` means a connect is scheduled to fire no earlier
than absolute time `t`). -/
structure AppState where
  lastCommand : String
  logs : List String
  cameraStatus : String
  wsStatus : WsConnectionStatus
  wsReadyState : ReadyState
  imageSrc : Option String
  imageSourceType : String
  serverError : Option String
  frameCount : Nat
  isRecordingRef : Bool
  recordedFramesRef : List String
  lastHistogramUpdate : Nat
  lastStatsUpdate : Nat
  totalMessages : Nat
  framesReceived : Nat
  statusUpdates : Nat
  lastRawMessage : String
  isRecording : Bool
  recordedFrames : List String
  recordingFrameCount : Nat
  frameRate : Nat
  targetFrameRate : Option Int
  histogramData : List Int
  imageStats : Option ImageStats
  cameraTemperature : Option Int
  cameraIntegrationTime : Option Int
  diagnostics : DiagSnapshot
  pendingReconnect : Option Nat
deriving DecidableEq

def WEBSOCKET_URL : String := "ws://localhost:8765"

/-- JS `a || d` on an optional string: `undefined`, `null` and `""` are
falsy and yield the default. -/
def jsOrStr : Option String → String → String
  | some s, d => if s = "" then d else s
  | none, d => d

/-- JS template rendering of a possibly-undefined string
(an `undefined` value renders as the text `undefined`). -/
def jsRender : Option String → String
  | some s => s
  | none => "undefined"

/-- The `addLog` callback: `setLogs(prev => [...prev.slice(-10), line])`
— keep the last ten lines, append the new one.  The wall-clock prefix is
elided; the `[App]`/`[Server]` tag and the message are kept. -/
def addLog (source : LogSource) (message : String) (logs : List String) : List String :=
  let tag := match source with
    | .app => "[App]"
    | .server => "[Server]"
  logs.drop (logs.length - 10) ++ [tag ++ ": " ++ message]

/-- Minimal model of `JSON.stringify` on a scalar value (string escaping
restricted to quote and backslash; no call site needs more). -/
def stringifyVal : JsonVal → String
  | .str s => "\"" ++ String.mk (s.data.flatMap fun c =>
      if c = '"' ∨ c = '\\' then ['\\', c] else [c]) ++ "\""
  | .num n => toString n
  | .bool b => if b then "true" else "false"
  | .null => "null"

/-- Model of `JSON.stringify` on a flat object. -/
def stringifyObj (fields : List (String × JsonVal)) : String :=
  "\x7b" ++ String.intercalate ","
    (fields.map fun f => "\"" ++ f.1 ++ "\":" ++ stringifyVal f.2) ++ "\x7d"

/-- Model of `JSON.stringify({ command, params })`, the outbound wire
payload. -/
def stringifyEnvelope (command : String) (params : List (String × JsonVal)) : String :=
  "\x7b\"command\":" ++ stringifyVal (.str command) ++
    ",\"params\":" ++ stringifyObj params ++ "\x7d"

/-- Result of a `sendCommand` call: the new component state together with
the payload handed to `websocket.send` (`none` when nothing was
transmitted). -/
structure SendOutcome where
  state : AppState
  transmitted : Option String
deriving DecidableEq

/-- The `sendCommand` callback.  When the socket's readyState is OPEN it
clears `serverError`, transmits the serialized envelope and records
`lastCommand`; otherwise it only logs a cannot-send notice. -/
def sendCommand (command : String) (params : List (String × JsonVal))
    (s : AppState) : SendOutcome :=
  if s.wsReadyState = ReadyState.OPEN then
    let payload := stringifyEnvelope command params
    let paramsString := if params.length > 0 then stringifyObj params else ""
    { state := { s with
        serverError := none
        lastCommand := command ++ "(" ++ paramsString ++ ")" }
      transmitted := some payload }
  else
    { state := { s with
        logs := addLog .app "Cannot send command: WebSocket is not connected." s.logs }
      transmitted := none }

/-- The guarded setter pattern
`if (field !== null) setStored(field)` used for `temperature` and
`integration_time_ms`: a present-null field fails the strict `!== null`
test so the setter is skipped; an absent field is `undefined`, which
passes it, so the stored value is overwritten with `undefined`. -/
def applyIfNotNull (f : JField Int) (cur : Option Int) : Option Int :=
  match f with
  | .null => cur
  | .absent => none
  | .val v => some v

/-- The guarded setter pattern `if (field !== undefined) setStored(field)`
used for `frame_rate`: absent skips the setter, a present-null field
stores `null`. -/
def applyIfNotUndefined (f : JField Int) (cur : Option Int) : Option Int :=
  match f with
  | .absent => cur
  | .null => none
  | .val v => some v

/-- The `camera_info` block of the `status_update` handler
(temperature and integration time only).  JS truthiness on
`message.camera_info`: an absent or null record does nothing. -/
def applyCameraInfoStatus (ci : Option CameraInfo) (s : AppState) : AppState :=
  match ci with
  | none => s
  | some info =>
    { s with
      cameraTemperature := applyIfNotNull info.temperature s.cameraTemperature
      cameraIntegrationTime := applyIfNotNull info.integration_time_ms s.cameraIntegrationTime }

/-- The `camera_info` block of the `image_frame` handler: same as the
status path plus the `frame_rate !== undefined` setter. -/
def applyCameraInfoFrame (ci : Option CameraInfo) (s : AppState) : AppState :=
  match ci with
  | none => s
  | some info =>
    { s with
      cameraTemperature := applyIfNotNull info.temperature s.cameraTemperature
      cameraIntegrationTime := applyIfNotNull info.integration_time_ms s.cameraIntegrationTime
      targetFrameRate := applyIfNotUndefined info.frame_rate s.targetFrameRate }

def validStatuses : List String := ["POWERED_OFF", "IDLE", "STREAMING"]

/-- Model of JS `String.prototype.toUpperCase` (character-wise upper
casing; coincides with it on the ASCII status strings the protocol
uses). -/
def jsToUpper (s : String) : String := String.mk (s.data.map Char.toUpper)

/-- The `status_update` arm of `ws.onmessage`. -/
def handleStatusUpdate (status : Option String) (ci : Option CameraInfo)
    (s : AppState) : AppState :=
  let s := { s with statusUpdates := s.statusUpdates + 1 }
  let newStatus := jsToUpper (jsOrStr status "")
  let s :=
    if validStatuses.contains newStatus then
      { s with
        cameraStatus := newStatus
        logs := addLog .server ("Camera status updated to: " ++ newStatus) s.logs }
    else
      { s with
        logs := addLog .server
          ("Received unknown camera status: \x27" ++ jsRender status ++ "\x27") s.logs }
  applyCameraInfoStatus ci s

def mkDataUrl (data : String) : String := "data:image/jpeg;base64," ++ data

/-- Histogram throttle of the `image_frame` handler: forwarded only when
more than 100 ms have elapsed since `lastHistogramUpdate`, which is then
advanced to `now`. -/
def applyHistogramThrottle (now : Nat) (histogram : Option (List Int))
    (s : AppState) : AppState :=
  match histogram with
  | some h =>
    if 100 < now - s.lastHistogramUpdate then
      { s with histogramData := h, lastHistogramUpdate := now }
    else s
  | none => s

/-- Stats throttle of the `image_frame` handler.  Note: the source does
not advance `lastStatsUpdate` here (unlike the histogram branch), so the
ref keeps its initial value 0. -/
def applyStatsThrottle (now : Nat) (stats : Option ImageStats)
    (s : AppState) : AppState :=
  match stats with
  | some st =>
    if 100 < now - s.lastStatsUpdate then
      { s with imageStats := some st }
    else s
  | none => s

/-- Recording append of the `image_frame` handler:
`if (isRecordingRef.current) recordedFramesRef.current.push(frameDataUrl)`.
Unconditional with respect to any throttling. -/
def applyRecording (frameDataUrl : String) (s : AppState) : AppState :=
  if s.isRecordingRef then
    { s with recordedFramesRef := s.recordedFramesRef ++ [frameDataUrl] }
  else s

/-- The `image_frame` arm of `ws.onmessage`. -/
def handleImageFrame (now : Nat) (data : String) (source : Option String)
    (histogram : Option (List Int)) (stats : Option ImageStats)
    (ci : Option CameraInfo) (s : AppState) : AppState :=
  let s := { s with framesReceived := s.framesReceived + 1 }
  let frameDataUrl := mkDataUrl data
  let s := { s with
    imageSrc := some frameDataUrl
    imageSourceType := jsOrStr source "simulated" }
  let s := applyHistogramThrottle now histogram s
  let s := applyStatsThrottle now stats s
  let s := applyCameraInfoFrame ci s
  let s := applyRecording frameDataUrl s
  { s with frameCount := s.frameCount + 1 }

/-- The `error` arm of `ws.onmessage`. -/
def handleError (message : Option String) (s : AppState) : AppState :=
  let errorMessage := jsOrStr message "An unknown error occurred on the server."
  { s with
    serverError := some errorMessage
    logs := addLog .server ("ERROR from server: " ++ errorMessage) s.logs }

/-- The whole `ws.onmessage` handler: bump `totalMessages`, retain the raw
payload, then dispatch on the message type.  `now` is the single
`performance.now()` reading taken at handler entry. -/
def handleMessage (now : Nat) (raw : String) (msg : ServerMessage)
    (s0 : AppState) : AppState :=
  let s := { s0 with totalMessages := s0.totalMessages + 1, lastRawMessage := raw }
  match msg with
  | .log m => { s with logs := addLog .server m s.logs }
  | .status_update status ci => handleStatusUpdate status ci s
  | .image_frame data source histogram stats ci =>
      handleImageFrame now data source histogram stats ci s
  | .error m => handleError m s
  | .unknown ty =>
      { s with logs := addLog .server ("Received unknown message type: " ++ ty) s.logs }

/-- One inbound websocket event: arrival time, raw payload, decoded
message. -/
structure InboundEvent where
  now : Nat
  raw : String
  msg : ServerMessage
deriving DecidableEq

/-- Process a sequence of inbound events in arrival order. -/
def runEvents (evs : List InboundEvent) (s : AppState) : AppState :=
  evs.foldl (fun st e => handleMessage e.now e.raw e.msg st) s

/-- The `handleToggleRecording` click handler: stop freezes the ref into
`recordedFrames`; start discards the buffered frames and marks active. -/
def handleToggleRecording (s : AppState) : AppState :=
  if s.isRecording then
    { s with
      isRecordingRef := false
      isRecording := false
      recordedFrames := s.recordedFramesRef
      logs := addLog .app
        ("Recording stopped. " ++ toString s.recordedFramesRef.length ++ " frames captured.")
        s.logs }
  else
    { s with
      recordedFramesRef := []
      recordedFrames := []
      isRecordingRef := true
      isRecording := true
      logs := addLog .app "Recording started..." s.logs }

/-- The `ws.onclose` handler, entered at absolute time `now`: mark
DISCONNECTED, reset the camera status to POWERED_OFF, clear the image
source kind, log a reason, and schedule the single
`setTimeout(connect, 5000)`.  The socket's readyState is CLOSED once the
close event fires (WebSocket semantics). -/
def handleClose (now : Nat) (code : Nat) (reason : String) (s : AppState) : AppState :=
  let s := { s with
    wsStatus := WsConnectionStatus.DISCONNECTED
    cameraStatus := "POWERED_OFF"
    imageSourceType := "none"
    wsReadyState := ReadyState.CLOSED }
  let r :=
    if code = 1006 then
      "Connection failed. Please ensure the Python server is running."
    else if reason ≠ "" then
      "Reason: " ++ reason ++ " (Code: " ++ toString code ++ ")"
    else
      "Connection closed unexpectedly (Code: " ++ toString code ++ ")"
  { s with
    logs := addLog .app (r ++ " Reconnecting in 5 seconds...") s.logs
    pendingReconnect := some (now + 5000) }

/-- The `connect` function (as far as the client state is concerned):
mark CONNECTING, log, create a fresh socket (readyState CONNECTING).  The
pending reconnect timer, if this call is its firing, is consumed. -/
def connect (s : AppState) : AppState :=
  { s with
    wsStatus := WsConnectionStatus.CONNECTING
    wsReadyState := ReadyState.CONNECTING
    logs := addLog .app ("Connecting to server at " ++ WEBSOCKET_URL ++ "...") s.logs
    pendingReconnect := none }

/-- The 1 Hz `setInterval` callback: publish the frame rate, reset the
frame counter, publish the diagnostics snapshot, and refresh the
recording progress count while recording. -/
def intervalTick (s : AppState) : AppState :=
  let s := { s with frameRate := s.frameCount, frameCount := 0 }
  let s := { s with diagnostics :=
    { totalMessages := s.totalMessages
      framesReceived := s.framesReceived
      statusUpdates := s.statusUpdates
      lastRawMessage := s.lastRawMessage } }
  if s.isRecordingRef then
    { s with recordingFrameCount := s.recordedFramesRef.length }
  else s

/-- The initial component state: every `useState`/`useRef` initializer of
the source. -/
def initialState : AppState where
  lastCommand := "app_init()"
  logs := ["Welcome to SWIR Camera Control GUI."]
  cameraStatus := "POWERED_OFF"
  wsStatus := WsConnectionStatus.CONNECTING
  wsReadyState := ReadyState.CONNECTING
  imageSrc := none
  imageSourceType := "none"
  serverError := none
  frameCount := 0
  isRecordingRef := false
  recordedFramesRef := []
  lastHistogramUpdate := 0
  lastStatsUpdate := 0
  totalMessages := 0
  framesReceived := 0
  statusUpdates := 0
  lastRawMessage := ""
  isRecording := false
  recordedFrames := []
  recordingFrameCount := 0
  frameRate := 0
  targetFrameRate := some 30
  histogramData := []
  imageStats := none
  cameraTemperature := none
  cameraIntegrationTime := none
  diagnostics := { totalMessages := 0, framesReceived := 0, statusUpdates := 0, lastRawMessage := "" }
  pendingReconnect := none

/-! Projection lemmas: how each handler helper acts on individual state
fields. -/

@[simp] theorem applyCameraInfoStatus_cameraTemperature (ci : Option CameraInfo) (s : AppState) :
    (applyCameraInfoStatus ci s).cameraTemperature =
      match ci with
      | none => s.cameraTemperature
      | some info => applyIfNotNull info.temperature s.cameraTemperature := by
  cases ci <;> rfl

@[simp] theorem applyCameraInfoStatus_cameraIntegrationTime (ci : Option CameraInfo) (s : AppState) :
    (applyCameraInfoStatus ci s).cameraIntegrationTime =
      match ci with
      | none => s.cameraIntegrationTime
      | some info => applyIfNotNull info.integration_time_ms s.cameraIntegrationTime := by
  cases ci <;> rfl

@[simp] theorem applyCameraInfoStatus_cameraStatus (ci : Option CameraInfo) (s : AppState) :
    (applyCameraInfoStatus ci s).cameraStatus = s.cameraStatus := by
  cases ci <;> rfl

@[simp] theorem applyCameraInfoFrame_cameraTemperature (ci : Option CameraInfo) (s : AppState) :
    (applyCameraInfoFrame ci s).cameraTemperature =
      match ci with
      | none => s.cameraTemperature
      | some info => applyIfNotNull info.temperature s.cameraTemperature := by
  cases ci <;> rfl

@[simp] theorem applyCameraInfoFrame_cameraIntegrationTime (ci : Option CameraInfo) (s : AppState) :
    (applyCameraInfoFrame ci s).cameraIntegrationTime =
      match ci with
      | none => s.cameraIntegrationTime
      | some info => applyIfNotNull info.integration_time_ms s.cameraIntegrationTime := by
  cases ci <;> rfl

@[simp] theorem applyHistogramThrottle_cameraTemperature (now : Nat)
    (hg : Option (List Int)) (s : AppState) :
    (applyHistogramThrottle now hg s).cameraTemperature = s.cameraTemperature := by
  cases hg <;> simp only [applyHistogramThrottle] <;> split <;> rfl

@[simp] theorem applyHistogramThrottle_cameraIntegrationTime (now : Nat)
    (hg : Option (List Int)) (s : AppState) :
    (applyHistogramThrottle now hg s).cameraIntegrationTime = s.cameraIntegrationTime := by
  cases hg <;> simp only [applyHistogramThrottle] <;> split <;> rfl

@[simp] theorem applyHistogramThrottle_imageStats (now : Nat)
    (hg : Option (List Int)) (s : AppState) :
    (applyHistogramThrottle now hg s).imageStats = s.imageStats := by
  cases hg <;> simp only [applyHistogramThrottle] <;> split <;> rfl

@[simp] theorem applyHistogramThrottle_lastStatsUpdate (now : Nat)
    (hg : Option (List Int)) (s : AppState) :
    (applyHistogramThrottle now hg s).lastStatsUpdate = s.lastStatsUpdate := by
  cases hg <;> simp only [applyHistogramThrottle] <;> split <;> rfl

@[simp] theorem applyHistogramThrottle_isRecordingRef (now : Nat)
    (hg : Option (List Int)) (s : AppState) :
    (applyHistogramThrottle now hg s).isRecordingRef = s.isRecordingRef := by
  cases hg <;> simp only [applyHistogramThrottle] <;> split <;> rfl

@[simp] theorem applyHistogramThrottle_recordedFramesRef (now : Nat)
    (hg : Option (List Int)) (s : AppState) :
    (applyHistogramThrottle now hg s).recordedFramesRef = s.recordedFramesRef := by
  cases hg <;> simp only [applyHistogramThrottle] <;> split <;> rfl

@[simp] theorem applyStatsThrottle_cameraTemperature (now : Nat)
    (stats : Option ImageStats) (s : AppState) :
    (applyStatsThrottle now stats s).cameraTemperature = s.cameraTemperature := by
  cases stats <;> simp only [applyStatsThrottle] <;> split <;> rfl

@[simp] theorem applyStatsThrottle_cameraIntegrationTime (now : Nat)
    (stats : Option ImageStats) (s : AppState) :
    (applyStatsThrottle now stats s).cameraIntegrationTime = s.cameraIntegrationTime := by
  cases stats <;> simp only [applyStatsThrottle] <;> split <;> rfl

@[simp] theorem applyStatsThrottle_histogramData (now : Nat)
    (stats : Option ImageStats) (s : AppState) :
    (applyStatsThrottle now stats s).histogramData = s.histogramData := by
  cases stats <;> simp only [applyStatsThrottle] <;> split <;> rfl

@[simp] theorem applyStatsThrottle_lastHistogramUpdate (now : Nat)
    (stats : Option ImageStats) (s : AppState) :
    (applyStatsThrottle now stats s).lastHistogramUpdate = s.lastHistogramUpdate := by
  cases stats <;> simp only [applyStatsThrottle] <;> split <;> rfl

@[simp] theorem applyStatsThrottle_isRecordingRef (now : Nat)
    (stats : Option ImageStats) (s : AppState) :
    (applyStatsThrottle now stats s).isRecordingRef = s.isRecordingRef := by
  cases stats <;> simp only [applyStatsThrottle] <;> split <;> rfl

@[simp] theorem applyStatsThrottle_recordedFramesRef (now : Nat)
    (stats : Option ImageStats) (s : AppState) :
    (applyStatsThrottle now stats s).recordedFramesRef = s.recordedFramesRef := by
  cases stats <;> simp only [applyStatsThrottle] <;> split <;> rfl

@[simp] theorem applyCameraInfoFrame_histogramData (ci : Option CameraInfo) (s : AppState) :
    (applyCameraInfoFrame ci s).histogramData = s.histogramData := by
  cases ci <;> rfl

@[simp] theorem applyCameraInfoFrame_lastHistogramUpdate (ci : Option CameraInfo) (s : AppState) :
    (applyCameraInfoFrame ci s).lastHistogramUpdate = s.lastHistogramUpdate := by
  cases ci <;> rfl

@[simp] theorem applyCameraInfoFrame_imageStats (ci : Option CameraInfo) (s : AppState) :
    (applyCameraInfoFrame ci s).imageStats = s.imageStats := by
  cases ci <;> rfl

@[simp] theorem applyCameraInfoFrame_lastStatsUpdate (ci : Option CameraInfo) (s : AppState) :
    (applyCameraInfoFrame ci s).lastStatsUpdate = s.lastStatsUpdate := by
  cases ci <;> rfl

@[simp] theorem applyCameraInfoFrame_isRecordingRef (ci : Option CameraInfo) (s : AppState) :
    (applyCameraInfoFrame ci s).isRecordingRef = s.isRecordingRef := by
  cases ci <;> rfl

@[simp] theorem applyCameraInfoFrame_recordedFramesRef (ci : Option CameraInfo) (s : AppState) :
    (applyCameraInfoFrame ci s).recordedFramesRef = s.recordedFramesRef := by
  cases ci <;> rfl

@[simp] theorem applyRecording_cameraTemperature (u : String) (s : AppState) :
    (applyRecording u s).cameraTemperature = s.cameraTemperature := by
  simp only [applyRecording]; split <;> rfl

@[simp] theorem applyRecording_cameraIntegrationTime (u : String) (s : AppState) :
    (applyRecording u s).cameraIntegrationTime = s.cameraIntegrationTime := by
  simp only [applyRecording]; split <;> rfl

@[simp] theorem applyRecording_histogramData (u : String) (s : AppState) :
    (applyRecording u s).histogramData = s.histogramData := by
  simp only [applyRecording]; split <;> rfl

@[simp] theorem applyRecording_lastHistogramUpdate (u : String) (s : AppState) :
    (applyRecording u s).lastHistogramUpdate = s.lastHistogramUpdate := by
  simp only [applyRecording]; split <;> rfl

@[simp] theorem applyRecording_imageStats (u : String) (s : AppState) :
    (applyRecording u s).imageStats = s.imageStats := by
  simp only [applyRecording]; split <;> rfl

@[simp] theorem applyRecording_lastStatsUpdate (u : String) (s : AppState) :
    (applyRecording u s).lastStatsUpdate = s.lastStatsUpdate := by
  simp only [applyRecording]; split <;> rfl

@[simp] theorem applyRecording_recordedFramesRef (u : String) (s : AppState) :
    (applyRecording u s).recordedFramesRef =
      if s.isRecordingRef then s.recordedFramesRef ++ [u] else s.recordedFramesRef := by
  simp only [applyRecording]; split <;> simp_all

/-! Characterization of the device-info effect of a full message. -/

theorem handleMessage_statusUpdate_cameraTemperature (now : Nat) (raw : String)
    (st : Option String) (ci : Option CameraInfo) (s : AppState) :
    (handleMessage now raw (.status_update st ci) s).cameraTemperature =
      match ci with
      | none => s.cameraTemperature
      | some info => applyIfNotNull info.temperature s.cameraTemperature := by
  simp only [handleMessage, handleStatusUpdate]
  split <;> cases ci <;> rfl

theorem handleMessage_statusUpdate_cameraIntegrationTime (now : Nat) (raw : String)
    (st : Option String) (ci : Option CameraInfo) (s : AppState) :
    (handleMessage now raw (.status_update st ci) s).cameraIntegrationTime =
      match ci with
      | none => s.cameraIntegrationTime
      | some info => applyIfNotNull info.integration_time_ms s.cameraIntegrationTime := by
  simp only [handleMessage, handleStatusUpdate]
  split <;> cases ci <;> rfl

theorem handleMessage_imageFrame_cameraTemperature (now : Nat) (raw : String)
    (data : String) (src : Option String) (hg : Option (List Int))
    (stats : Option ImageStats) (ci : Option CameraInfo) (s : AppState) :
    (handleMessage now raw (.image_frame data src hg stats ci) s).cameraTemperature =
      match ci with
      | none => s.cameraTemperature
      | some info => applyIfNotNull info.temperature s.cameraTemperature := by
  simp only [handleMessage, handleImageFrame]
  simp

theorem handleMessage_imageFrame_cameraIntegrationTime (now : Nat) (raw : String)
    (data : String) (src : Option String) (hg : Option (List Int))
    (stats : Option ImageStats) (ci : Option CameraInfo) (s : AppState) :
    (handleMessage now raw (.image_frame data src hg stats ci) s).cameraIntegrationTime =
      match ci with
      | none => s.cameraIntegrationTime
      | some info => applyIfNotNull info.integration_time_ms s.cameraIntegrationTime := by
  simp only [handleMessage, handleImageFrame]
  simp

/-- C1 counterexample.  The claim predicts that a present-null
`temperature` clears the stored value and an absent `integration_time_ms`
leaves it unchanged.  On a state holding temperature 21 and integration
time 5, a `status_update` whose `camera_info` is
`{ temperature: null }` (integration time absent) in fact leaves the
temperature stored and clears the integration time: the strict
`!== null` guard of the source skips present-null fields and lets absent
(`undefined`) fields overwrite. -/
theorem c1_counterexample :
    (handleMessage 0 ""
        (.status_update (some "IDLE")
          (some { temperature := JField.null, integration_time_ms := JField.absent,
                  frame_rate := JField.absent }))
        { initialState with cameraTemperature := some 21, cameraIntegrationTime := some 5 }
      ).cameraTemperature = some 21 ∧
    (handleMessage 0 ""
        (.status_update (some "IDLE")
          (some { temperature := JField.null, integration_time_ms := JField.absent,
                  frame_rate := JField.absent }))
        { initialState with cameraTemperature := some 21, cameraIntegrationTime := some 5 }
      ).cameraTemperature ≠ none ∧
    (handleMessage 0 ""
        (.status_update (some "IDLE")
          (some { temperature := JField.null, integration_time_ms := JField.absent,
                  frame_rate := JField.absent }))
        { initialState with cameraTemperature := some 21, cameraIntegrationTime := some 5 }
      ).cameraIntegrationTime = none := by
  refine ⟨?_, ?_, ?_⟩ <;>
    simp [handleMessage_statusUpdate_cameraTemperature,
      handleMessage_statusUpdate_cameraIntegrationTime, applyIfNotNull]

/-- C1 amended: for every device-info update accompanying a
`status_update` or `image_frame` message, a field that is present with
value null leaves the corresponding stored value unchanged, a field that
is entirely absent clears it (the stored value becomes unknown), and a
field present with a non-null value replaces it; an absent or null
`camera_info` record leaves both stored values unchanged. -/
theorem c1_device_info_null_keeps_absent_clears
    (s : AppState) (now : Nat) (raw data : String) (st src : Option String)
    (hg : Option (List Int)) (stats : Option ImageStats)
    (t it fr : JField Int) (v : Int) :
    ((handleMessage now raw
        (.status_update st (some { temperature := JField.null, integration_time_ms := it, frame_rate := fr })) s
      ).cameraTemperature = s.cameraTemperature) ∧
    ((handleMessage now raw
        (.status_update st (some { temperature := JField.absent, integration_time_ms := it, frame_rate := fr })) s
      ).cameraTemperature = none) ∧
    ((handleMessage now raw
        (.status_update st (some { temperature := JField.val v, integration_time_ms := it, frame_rate := fr })) s
      ).cameraTemperature = some v) ∧
    ((handleMessage now raw
        (.status_update st (some { temperature := t, integration_time_ms := JField.null, frame_rate := fr })) s
      ).cameraIntegrationTime = s.cameraIntegrationTime) ∧
    ((handleMessage now raw
        (.status_update st (some { temperature := t, integration_time_ms := JField.absent, frame_rate := fr })) s
      ).cameraIntegrationTime = none) ∧
    ((handleMessage now raw
        (.status_update st (some { temperature := t, integration_time_ms := JField.val v, frame_rate := fr })) s
      ).cameraIntegrationTime = some v) ∧
    ((handleMessage now raw (.status_update st none) s).cameraTemperature = s.cameraTemperature) ∧
    ((handleMessage now raw (.status_update st none) s).cameraIntegrationTime = s.cameraIntegrationTime) ∧
    ((handleMessage now raw
        (.image_frame data src hg stats (some { temperature := JField.null, integration_time_ms := it, frame_rate := fr })) s
      ).cameraTemperature = s.cameraTemperature) ∧
    ((handleMessage now raw
        (.image_frame data src hg stats (some { temperature := JField.absent, integration_time_ms := it, frame_rate := fr })) s
      ).cameraTemperature = none) ∧
    ((handleMessage now raw
        (.image_frame data src hg stats (some { temperature := JField.val v, integration_time_ms := it, frame_rate := fr })) s
      ).cameraTemperature = some v) ∧
    ((handleMessage now raw
        (.image_frame data src hg stats (some { temperature := t, integration_time_ms := JField.null, frame_rate := fr })) s
      ).cameraIntegrationTime = s.cameraIntegrationTime) ∧
    ((handleMessage now raw
        (.image_frame data src hg stats (some { temperature := t, integration_time_ms := JField.absent, frame_rate := fr })) s
      ).cameraIntegrationTime = none) ∧
    ((handleMessage now raw
        (.image_frame data src hg stats (some { temperature := t, integration_time_ms := JField.val v, frame_rate := fr })) s
      ).cameraIntegrationTime = some v) ∧
    ((handleMessage now raw (.image_frame data src hg stats none) s).cameraTemperature = s.cameraTemperature) ∧
    ((handleMessage now raw (.image_frame data src hg stats none) s).cameraIntegrationTime = s.cameraIntegrationTime) := by
  refine ⟨?_, ?_, ?_, ?_, ?_, ?_, ?_, ?_, ?_, ?_, ?_, ?_, ?_, ?_, ?_, ?_⟩ <;>
    simp [handleMessage_statusUpdate_cameraTemperature,
      handleMessage_statusUpdate_cameraIntegrationTime,
      handleMessage_imageFrame_cameraTemperature,
      handleMessage_imageFrame_cameraIntegrationTime, applyIfNotNull]

/-- C2: the source's stats branch never advances `lastStatsUpdate` (its
comment announces the same 10 Hz throttle as histograms, but unlike the
histogram branch the timestamp write is missing).  Evaluating the
embedded handler at the failing input: two stats-bearing frames 10 ms
apart (at clock 150 and 160) are BOTH forwarded to `imageStats`, and the
eligibility timestamp still reads its initial 0. -/
theorem c2_stats_throttle_timestamp_never_advances :
    ((handleMessage 150 ""
        (.image_frame "a" none none (some { min := 0, max := 10, mean := 5 }) none)
        initialState).imageStats = some { min := 0, max := 10, mean := 5 }) ∧
    ((handleMessage 150 ""
        (.image_frame "a" none none (some { min := 0, max := 10, mean := 5 }) none)
        initialState).lastStatsUpdate = 0) ∧
    ((handleMessage 160 ""
        (.image_frame "b" none none (some { min := 1, max := 11, mean := 6 }) none)
        (handleMessage 150 ""
          (.image_frame "a" none none (some { min := 0, max := 10, mean := 5 }) none)
          initialState)).imageStats = some { min := 1, max := 11, mean := 6 }) ∧
    ((handleMessage 160 ""
        (.image_frame "b" none none (some { min := 1, max := 11, mean := 6 }) none)
        (handleMessage 150 ""
          (.image_frame "a" none none (some { min := 0, max := 10, mean := 5 }) none)
          initialState)).lastStatsUpdate = 0) := by
  refine ⟨?_, ?_, ?_, ?_⟩ <;> decide

/-- C3 counterexample.  Taking the claim's clock literally, the first
histogram-bearing frame arrives when the millisecond clock reads 0 and
the last-forward timestamp holds its initial 0, so the `> 100` elapsed
test fails and the t = 0 update is DROPPED, not forwarded as the claim
states: `histogramData` stays empty and the timestamp is not advanced. -/
theorem c3_counterexample :
    ((handleMessage 0 "" (.image_frame "d" none (some [1]) none none) initialState).histogramData
      = []) ∧
    ((handleMessage 0 "" (.image_frame "d" none (some [1]) none none) initialState).histogramData
      ≠ [1]) ∧
    ((handleMessage 0 "" (.image_frame "d" none (some [1]) none none) initialState).lastHistogramUpdate
      = 0) := by
  refine ⟨?_, ?_, ?_⟩ <;> decide

theorem handleMessage_imageFrame_histogramData (now : Nat) (raw data : String)
    (src : Option String) (h : List Int) (stats : Option ImageStats)
    (ci : Option CameraInfo) (s : AppState) :
    (handleMessage now raw (.image_frame data src (some h) stats ci) s).histogramData =
      if 100 < now - s.lastHistogramUpdate then h else s.histogramData := by
  simp only [handleMessage, handleImageFrame]
  simp [applyHistogramThrottle]
  split <;> simp

theorem handleMessage_imageFrame_lastHistogramUpdate (now : Nat) (raw data : String)
    (src : Option String) (h : List Int) (stats : Option ImageStats)
    (ci : Option CameraInfo) (s : AppState) :
    (handleMessage now raw (.image_frame data src (some h) stats ci) s).lastHistogramUpdate =
      if 100 < now - s.lastHistogramUpdate then now else s.lastHistogramUpdate := by
  simp only [handleMessage, handleImageFrame]
  simp [applyHistogramThrottle]
  split <;> simp

/-- Scenario shorthand for the throttle trace: one inbound frame carrying
a histogram, arriving at clock time `t`. -/
def histFrame (t : Nat) (h : List Int) (st : AppState) : AppState :=
  handleMessage t "" (.image_frame "d" none (some h) none none) st

theorem histFrame_histogramData (t : Nat) (h : List Int) (st : AppState) :
    (histFrame t h st).histogramData =
      if 100 < t - st.lastHistogramUpdate then h else st.histogramData :=
  handleMessage_imageFrame_histogramData t "" "d" none h none none st

theorem histFrame_lastHistogramUpdate (t : Nat) (h : List Int) (st : AppState) :
    (histFrame t h st).lastHistogramUpdate =
      if 100 < t - st.lastHistogramUpdate then t else st.lastHistogramUpdate :=
  handleMessage_imageFrame_lastHistogramUpdate t "" "d" none h none none st

/-- C3 amended: with the first histogram-bearing frame arriving at a
clock reading `t0` greater than the 100 ms window (true of every real
run, since the clock starts at page load well before the socket
delivers), frames at `t0`, `t0`+30, +60, +90, +120 from a state whose
last-forward timestamp is still the initial 0 behave as the spec's
trace: exactly the first and the last are forwarded (more than 100 ms
elapsed since the last forward), the middle three are dropped, and the
last-forward timestamp is updated only on a forward. -/
theorem c3_throttle_trace (s : AppState) (t0 : Nat) (h0 h1 h2 h3 h4 : List Int)
    (hs : s.lastHistogramUpdate = 0) (ht : 100 < t0) :
    ((histFrame t0 h0 s).histogramData = h0) ∧
    ((histFrame t0 h0 s).lastHistogramUpdate = t0) ∧
    ((histFrame (t0 + 30) h1 (histFrame t0 h0 s)).histogramData = h0) ∧
    ((histFrame (t0 + 30) h1 (histFrame t0 h0 s)).lastHistogramUpdate = t0) ∧
    ((histFrame (t0 + 60) h2 (histFrame (t0 + 30) h1 (histFrame t0 h0 s))).histogramData = h0) ∧
    ((histFrame (t0 + 60) h2 (histFrame (t0 + 30) h1 (histFrame t0 h0 s))).lastHistogramUpdate = t0) ∧
    ((histFrame (t0 + 90) h3 (histFrame (t0 + 60) h2 (histFrame (t0 + 30) h1
        (histFrame t0 h0 s)))).histogramData = h0) ∧
    ((histFrame (t0 + 90) h3 (histFrame (t0 + 60) h2 (histFrame (t0 + 30) h1
        (histFrame t0 h0 s)))).lastHistogramUpdate = t0) ∧
    ((histFrame (t0 + 120) h4 (histFrame (t0 + 90) h3 (histFrame (t0 + 60) h2
        (histFrame (t0 + 30) h1 (histFrame t0 h0 s))))).histogramData = h4) ∧
    ((histFrame (t0 + 120) h4 (histFrame (t0 + 90) h3 (histFrame (t0 + 60) h2
        (histFrame (t0 + 30) h1 (histFrame t0 h0 s))))).lastHistogramUpdate = t0 + 120) := by
  have c0 : 100 < t0 - s.lastHistogramUpdate := by rw [hs]; omega
  have d0 : (histFrame t0 h0 s).histogramData = h0 := by
    rw [histFrame_histogramData, if_pos c0]
  have l0 : (histFrame t0 h0 s).lastHistogramUpdate = t0 := by
    rw [histFrame_lastHistogramUpdate, if_pos c0]
  have c1 : ¬ 100 < t0 + 30 - (histFrame t0 h0 s).lastHistogramUpdate := by rw [l0]; omega
  have d1 : (histFrame (t0 + 30) h1 (histFrame t0 h0 s)).histogramData = h0 := by
    rw [histFrame_histogramData, if_neg c1, d0]
  have l1 : (histFrame (t0 + 30) h1 (histFrame t0 h0 s)).lastHistogramUpdate = t0 := by
    rw [histFrame_lastHistogramUpdate, if_neg c1, l0]
  have c2 : ¬ 100 < t0 + 60 -
      (histFrame (t0 + 30) h1 (histFrame t0 h0 s)).lastHistogramUpdate := by rw [l1]; omega
  have d2 : (histFrame (t0 + 60) h2 (histFrame (t0 + 30) h1
      (histFrame t0 h0 s))).histogramData = h0 := by
    rw [histFrame_histogramData, if_neg c2, d1]
  have l2 : (histFrame (t0 + 60) h2 (histFrame (t0 + 30) h1
      (histFrame t0 h0 s))).lastHistogramUpdate = t0 := by
    rw [histFrame_lastHistogramUpdate, if_neg c2, l1]
  have c3 : ¬ 100 < t0 + 90 - (histFrame (t0 + 60) h2 (histFrame (t0 + 30) h1
      (histFrame t0 h0 s))).lastHistogramUpdate := by rw [l2]; omega
  have d3 : (histFrame (t0 + 90) h3 (histFrame (t0 + 60) h2 (histFrame (t0 + 30) h1
      (histFrame t0 h0 s)))).histogramData = h0 := by
    rw [histFrame_histogramData, if_neg c3, d2]
  have l3 : (histFrame (t0 + 90) h3 (histFrame (t0 + 60) h2 (histFrame (t0 + 30) h1
      (histFrame t0 h0 s)))).lastHistogramUpdate = t0 := by
    rw [histFrame_lastHistogramUpdate, if_neg c3, l2]
  have c4 : 100 < t0 + 120 - (histFrame (t0 + 90) h3 (histFrame (t0 + 60) h2
      (histFrame (t0 + 30) h1 (histFrame t0 h0 s)))).lastHistogramUpdate := by rw [l3]; omega
  have d4 : (histFrame (t0 + 120) h4 (histFrame (t0 + 90) h3 (histFrame (t0 + 60) h2
      (histFrame (t0 + 30) h1 (histFrame t0 h0 s))))).histogramData = h4 := by
    rw [histFrame_histogramData, if_pos c4]
  have l4 : (histFrame (t0 + 120) h4 (histFrame (t0 + 90) h3 (histFrame (t0 + 60) h2
      (histFrame (t0 + 30) h1 (histFrame t0 h0 s))))).lastHistogramUpdate = t0 + 120 := by
    rw [histFrame_lastHistogramUpdate, if_pos c4]
  exact ⟨d0, l0, d1, l1, d2, l2, d3, l3, d4, l4⟩

/-- Concrete run of the amended C3 trace, starting at clock time 101. -/
theorem c3_throttle_trace_witness :
    ((histFrame 101 [1] initialState).histogramData = [1]) ∧
    ((histFrame (101 + 30) [2] (histFrame 101 [1] initialState)).histogramData = [1]) ∧
    ((histFrame (101 + 120) [5] (histFrame (101 + 90) [4] (histFrame (101 + 60) [3]
        (histFrame (101 + 30) [2] (histFrame 101 [1] initialState))))).histogramData = [5]) := by
  have h := c3_throttle_trace initialState 101 [1] [2] [3] [4] [5] rfl (by norm_num)
  exact ⟨h.1, h.2.2.1, h.2.2.2.2.2.2.2.2.1⟩

/-! Recording-path lemmas. -/

@[simp] theorem applyCameraInfoStatus_isRecordingRef (ci : Option CameraInfo) (s : AppState) :
    (applyCameraInfoStatus ci s).isRecordingRef = s.isRecordingRef := by
  cases ci <;> rfl

@[simp] theorem applyCameraInfoStatus_isRecording (ci : Option CameraInfo) (s : AppState) :
    (applyCameraInfoStatus ci s).isRecording = s.isRecording := by
  cases ci <;> rfl

@[simp] theorem applyCameraInfoStatus_recordedFramesRef (ci : Option CameraInfo) (s : AppState) :
    (applyCameraInfoStatus ci s).recordedFramesRef = s.recordedFramesRef := by
  cases ci <;> rfl

@[simp] theorem applyCameraInfoFrame_isRecording (ci : Option CameraInfo) (s : AppState) :
    (applyCameraInfoFrame ci s).isRecording = s.isRecording := by
  cases ci <;> rfl

@[simp] theorem applyHistogramThrottle_isRecording (now : Nat)
    (hg : Option (List Int)) (s : AppState) :
    (applyHistogramThrottle now hg s).isRecording = s.isRecording := by
  cases hg <;> simp only [applyHistogramThrottle] <;> split <;> rfl

@[simp] theorem applyStatsThrottle_isRecording (now : Nat)
    (stats : Option ImageStats) (s : AppState) :
    (applyStatsThrottle now stats s).isRecording = s.isRecording := by
  cases stats <;> simp only [applyStatsThrottle] <;> split <;> rfl

@[simp] theorem applyRecording_isRecordingRef (u : String) (s : AppState) :
    (applyRecording u s).isRecordingRef = s.isRecordingRef := by
  simp only [applyRecording]; split <;> rfl

@[simp] theorem applyRecording_isRecording (u : String) (s : AppState) :
    (applyRecording u s).isRecording = s.isRecording := by
  simp only [applyRecording]; split <;> rfl

@[simp] theorem handleMessage_isRecordingRef (now : Nat) (raw : String)
    (msg : ServerMessage) (s : AppState) :
    (handleMessage now raw msg s).isRecordingRef = s.isRecordingRef := by
  cases msg <;>
    simp only [handleMessage, handleStatusUpdate, handleImageFrame, handleError] <;>
    (try split) <;> simp

@[simp] theorem handleMessage_isRecording (now : Nat) (raw : String)
    (msg : ServerMessage) (s : AppState) :
    (handleMessage now raw msg s).isRecording = s.isRecording := by
  cases msg <;>
    simp only [handleMessage, handleStatusUpdate, handleImageFrame, handleError] <;>
    (try split) <;> simp

/-- The frames a single inbound message appends to the recording ref
while recording is active. -/
def recAppend (msg : ServerMessage) : List String :=
  match msg with
  | .image_frame data _ _ _ _ => [mkDataUrl data]
  | _ => []

theorem handleMessage_recordedFramesRef (now : Nat) (raw : String)
    (msg : ServerMessage) (s : AppState) :
    (handleMessage now raw msg s).recordedFramesRef =
      s.recordedFramesRef ++ (if s.isRecordingRef then recAppend msg else []) := by
  cases msg <;>
    simp only [handleMessage, handleStatusUpdate, handleImageFrame, handleError, recAppend] <;>
    (try split) <;> simp_all

/-- The data-URLs of the image frames among a sequence of inbound
events, in arrival order. -/
def frameDataUrls : List InboundEvent → List String
  | [] => []
  | e :: rest => recAppend e.msg ++ frameDataUrls rest

theorem runEvents_recording (evs : List InboundEvent) (s : AppState)
    (h : s.isRecordingRef = true) :
    (runEvents evs s).recordedFramesRef = s.recordedFramesRef ++ frameDataUrls evs ∧
    (runEvents evs s).isRecordingRef = true ∧
    (runEvents evs s).isRecording = s.isRecording := by
  induction evs generalizing s with
  | nil => simp_all [runEvents, frameDataUrls]
  | cons e rest ih =>
    have hrec : (handleMessage e.now e.raw e.msg s).isRecordingRef = true := by
      rw [handleMessage_isRecordingRef]; exact h
    obtain ⟨a, b, c⟩ := ih (handleMessage e.now e.raw e.msg s) hrec
    have hl : runEvents (e :: rest) s = runEvents rest (handleMessage e.now e.raw e.msg s) := by
      simp [runEvents]
    refine ⟨?_, ?_, ?_⟩
    · rw [hl, a, handleMessage_recordedFramesRef, h, if_pos rfl, frameDataUrls,
        List.append_assoc]
    · rw [hl]; exact b
    · rw [hl, c, handleMessage_isRecording]

/-- C4: if the image frames of `evs` arrive while recording is active
(started by one toggle from a non-recording state), then when recording
stops the frozen session contains exactly those frames, as data-URLs, in
arrival order — independent of any histogram/stats throttling applied to
the display path by the same events. -/
theorem handleToggleRecording_start (s : AppState) (h : s.isRecording = false) :
    (handleToggleRecording s).recordedFramesRef = [] ∧
    (handleToggleRecording s).recordedFrames = [] ∧
    (handleToggleRecording s).isRecording = true ∧
    (handleToggleRecording s).isRecordingRef = true := by
  simp [handleToggleRecording, h]

theorem handleToggleRecording_stop (s : AppState) (h : s.isRecording = true) :
    (handleToggleRecording s).recordedFrames = s.recordedFramesRef ∧
    (handleToggleRecording s).isRecording = false ∧
    (handleToggleRecording s).isRecordingRef = false ∧
    (handleToggleRecording s).recordedFramesRef = s.recordedFramesRef := by
  simp [handleToggleRecording, h]

theorem c4_recording_complete (s : AppState) (evs : List InboundEvent)
    (h : s.isRecording = false) :
    (handleToggleRecording (runEvents evs (handleToggleRecording s))).recordedFrames
      = frameDataUrls evs ∧
    (handleToggleRecording (runEvents evs (handleToggleRecording s))).isRecording = false := by
  obtain ⟨r1, r2, r3, r4⟩ := handleToggleRecording_start s h
  obtain ⟨a, b, c⟩ := runEvents_recording evs (handleToggleRecording s) r4
  have hrecing : (runEvents evs (handleToggleRecording s)).isRecording = true := by
    rw [c, r3]
  obtain ⟨t1, t2, _, _⟩ := handleToggleRecording_stop _ hrecing
  refine ⟨?_, t2⟩
  rw [t1, a, r1]
  simp

/-- Concrete run of C4: three messages arrive while recording — a frame,
a status update, a second frame with a throttled-out histogram; the
frozen session holds exactly the two frames in order. -/
theorem c4_recording_complete_witness :
    (handleToggleRecording (runEvents
        [{ now := 0, raw := "", msg := .image_frame "a" none none none none },
         { now := 1, raw := "", msg := .status_update (some "IDLE") none },
         { now := 2, raw := "", msg := .image_frame "b" none (some [1]) none none }]
        (handleToggleRecording initialState))).recordedFrames
      = [mkDataUrl "a", mkDataUrl "b"] := by
  have h := (c4_recording_complete initialState
    [{ now := 0, raw := "", msg := .image_frame "a" none none none none },
     { now := 1, raw := "", msg := .status_update (some "IDLE") none },
     { now := 2, raw := "", msg := .image_frame "b" none (some [1]) none none }] rfl).1
  rw [h]; rfl

/-! Status validation lemmas. -/

/-- The normalization the handler applies to an incoming status value:
`(message.status || '').toUpperCase()`. -/
def normalizeStatus (st : Option String) : String := jsToUpper (jsOrStr st "")

theorem handleMessage_statusUpdate_cameraStatus (now : Nat) (raw : String)
    (st : Option String) (ci : Option CameraInfo) (s : AppState) :
    (handleMessage now raw (.status_update st ci) s).cameraStatus =
      if validStatuses.contains (normalizeStatus st) then normalizeStatus st
      else s.cameraStatus := by
  simp only [handleMessage, handleStatusUpdate, normalizeStatus,
    applyCameraInfoStatus_cameraStatus]
  split <;> simp_all

/-- One inbound `status_update` message: arrival time, raw payload,
status value, optional device info. -/
structure StatusEvent where
  now : Nat
  raw : String
  status : Option String
  camera_info : Option CameraInfo

/-- The corresponding inbound event. -/
def StatusEvent.toEvent (u : StatusEvent) : InboundEvent :=
  { now := u.now, raw := u.raw, msg := .status_update u.status u.camera_info }

/-- Specification-side fold: the normalization of the most recent status
whose normalization is one of the three recognized values, or the
initial value if no valid status has been seen. -/
def lastValidStatus (init : String) : List (Option String) → String
  | [] => init
  | st :: rest =>
      lastValidStatus
        (if validStatuses.contains (normalizeStatus st) then normalizeStatus st else init)
        rest

/-- C5: after any sequence of `status_update` messages from a state whose
device state is recognized (as it is after a reconnect, which forces
POWERED_OFF), the device state equals the case-insensitively normalized
value of the most recent status whose normalization is recognized;
unrecognized or missing status values never change it, and the stored
device state is always one of the three recognized values. -/
theorem c5_status_validation (s : AppState) (ups : List StatusEvent)
    (h : validStatuses.contains s.cameraStatus = true) :
    ((runEvents (ups.map StatusEvent.toEvent) s).cameraStatus
      = lastValidStatus s.cameraStatus (ups.map StatusEvent.status)) ∧
    validStatuses.contains (runEvents (ups.map StatusEvent.toEvent) s).cameraStatus = true := by
  induction ups generalizing s with
  | nil => exact ⟨rfl, h⟩
  | cons u rest ih =>
    have hstep : runEvents ((u :: rest).map StatusEvent.toEvent) s =
        runEvents (rest.map StatusEvent.toEvent)
          (handleMessage u.now u.raw (.status_update u.status u.camera_info) s) := by
      simp [runEvents, StatusEvent.toEvent]
    have hcs := handleMessage_statusUpdate_cameraStatus u.now u.raw u.status u.camera_info s
    have hmem : validStatuses.contains
        (handleMessage u.now u.raw (.status_update u.status u.camera_info) s).cameraStatus
          = true := by
      rw [hcs]; split
      · assumption
      · exact h
    obtain ⟨a, b⟩ := ih _ hmem
    refine ⟨?_, ?_⟩
    · rw [hstep, a, hcs]
      rfl
    · rw [hstep]; exact b

/-- Concrete run of C5: lowercase `idle` is normalized and applied, an
unrecognized `warming_up` and a missing status are discarded, so the
final device state is IDLE. -/
theorem c5_status_validation_witness :
    (runEvents
        ([{ now := 0, raw := "", status := some "idle", camera_info := none },
          { now := 1, raw := "", status := some "warming_up", camera_info := none },
          { now := 2, raw := "", status := none, camera_info := none }].map
          StatusEvent.toEvent)
        initialState).cameraStatus = "IDLE" := by
  have h := (c5_status_validation initialState
    [{ now := 0, raw := "", status := some "idle", camera_info := none },
     { now := 1, raw := "", status := some "warming_up", camera_info := none },
     { now := 2, raw := "", status := none, camera_info := none }] rfl).1
  rw [h]; decide

/-! Connection lifecycle lemmas. -/

@[simp] theorem sendCommand_wsStatus (cmd : String) (ps : List (String × JsonVal)) (s : AppState) :
    (sendCommand cmd ps s).state.wsStatus = s.wsStatus := by
  simp only [sendCommand]; split <;> rfl

@[simp] theorem sendCommand_pendingReconnect (cmd : String) (ps : List (String × JsonVal)) (s : AppState) :
    (sendCommand cmd ps s).state.pendingReconnect = s.pendingReconnect := by
  simp only [sendCommand]; split <;> rfl

@[simp] theorem handleToggleRecording_wsStatus (s : AppState) :
    (handleToggleRecording s).wsStatus = s.wsStatus := by
  simp only [handleToggleRecording]; split <;> rfl

@[simp] theorem handleToggleRecording_pendingReconnect (s : AppState) :
    (handleToggleRecording s).pendingReconnect = s.pendingReconnect := by
  simp only [handleToggleRecording]; split <;> rfl

@[simp] theorem intervalTick_wsStatus (s : AppState) :
    (intervalTick s).wsStatus = s.wsStatus := by
  simp only [intervalTick]; split <;> rfl

@[simp] theorem intervalTick_pendingReconnect (s : AppState) :
    (intervalTick s).pendingReconnect = s.pendingReconnect := by
  simp only [intervalTick]; split <;> rfl

/-- An event the client can process while disconnected, other than the
firing of the scheduled reconnect timer: the 1 Hz interval tick, a
user-issued command (which cannot transmit and only logs), or a
recording toggle.  Message arrival is excluded because a closed socket
delivers no messages. -/
inductive InterimStep : AppState → AppState → Prop where
  | tick (s : AppState) : InterimStep s (intervalTick s)
  | send (cmd : String) (ps : List (String × JsonVal)) (s : AppState) :
      InterimStep s (sendCommand cmd ps s).state
  | toggleRecording (s : AppState) : InterimStep s (handleToggleRecording s)

/-- Any event the client can process at absolute time `t` while
disconnected, including the firing of the scheduled reconnect timer,
which the runtime delivers no earlier than its scheduled time. -/
inductive DisconnectedStep : Nat → AppState → AppState → Prop where
  | tick (t : Nat) (s : AppState) : DisconnectedStep t s (intervalTick s)
  | send (t : Nat) (cmd : String) (ps : List (String × JsonVal)) (s : AppState) :
      DisconnectedStep t s (sendCommand cmd ps s).state
  | toggleRecording (t : Nat) (s : AppState) : DisconnectedStep t s (handleToggleRecording s)
  | fireReconnect (t tf : Nat) (s : AppState) :
      s.pendingReconnect = some tf → tf ≤ t → DisconnectedStep t s (connect s)

theorem interimStep_preserves (s u : AppState) (h : InterimStep s u) :
    u.wsStatus = s.wsStatus ∧ u.pendingReconnect = s.pendingReconnect := by
  cases h <;> simp

theorem interimReach_preserves (s u : AppState)
    (h : Relation.ReflTransGen InterimStep s u) :
    u.wsStatus = s.wsStatus ∧ u.pendingReconnect = s.pendingReconnect := by
  induction h with
  | refl => exact ⟨rfl, rfl⟩
  | tail _ hstep ih =>
    obtain ⟨a, b⟩ := interimStep_preserves _ _ hstep
    exact ⟨a.trans ih.1, b.trans ih.2⟩

/-- C6: handling a close event at time `now` schedules exactly one
reconnect attempt, to fire no earlier than `now` + 5000 ms, sets
DeviceState to POWERED_OFF immediately, and puts ConnectionState at
DISCONNECTED; across every sequence of client events possible before the
timer fires, ConnectionState stays DISCONNECTED and the single scheduled
attempt is unchanged, and any step that leaves DISCONNECTED is that
attempt firing at a time at least `now` + 5000 and entering
CONNECTING. -/
theorem c6_close_schedules_reconnect (now code : Nat) (reason : String) (s : AppState) :
    ((handleClose now code reason s).pendingReconnect = some (now + 5000)) ∧
    ((handleClose now code reason s).wsStatus = WsConnectionStatus.DISCONNECTED) ∧
    ((handleClose now code reason s).cameraStatus = "POWERED_OFF") ∧
    (∀ u, Relation.ReflTransGen InterimStep (handleClose now code reason s) u →
      u.wsStatus = WsConnectionStatus.DISCONNECTED ∧
      u.pendingReconnect = some (now + 5000) ∧
      ∀ t v, DisconnectedStep t u v →
        v.wsStatus = WsConnectionStatus.DISCONNECTED ∨
        (now + 5000 ≤ t ∧ v = connect u ∧
          v.wsStatus = WsConnectionStatus.CONNECTING)) := by
  have hpend : (handleClose now code reason s).pendingReconnect = some (now + 5000) := rfl
  have hws : (handleClose now code reason s).wsStatus = WsConnectionStatus.DISCONNECTED := rfl
  refine ⟨hpend, hws, rfl, ?_⟩
  intro u hreach
  obtain ⟨a, b⟩ := interimReach_preserves _ _ hreach
  have hu : u.wsStatus = WsConnectionStatus.DISCONNECTED := a.trans hws
  have hp : u.pendingReconnect = some (now + 5000) := b.trans hpend
  refine ⟨hu, hp, ?_⟩
  intro t v hstep
  cases hstep with
  | tick => left; rw [intervalTick_wsStatus]; exact hu
  | send => left; rw [sendCommand_wsStatus]; exact hu
  | toggleRecording => left; rw [handleToggleRecording_wsStatus]; exact hu
  | fireReconnect tf x hpf hle =>
    right
    have htf : tf = now + 5000 := by
      rw [hpf] at hp
      exact Option.some.inj hp
    refine ⟨htf ▸ hle, rfl, rfl⟩

/-- Concrete close event at time 3: one reconnect scheduled for 5003,
DISCONNECTED and POWERED_OFF immediately, and still DISCONNECTED at the
(trivially reachable) post-close state itself. -/
theorem c6_close_schedules_reconnect_witness :
    ((handleClose 3 1006 "" initialState).pendingReconnect = some 5003) ∧
    ((handleClose 3 1006 "" initialState).wsStatus = WsConnectionStatus.DISCONNECTED) ∧
    ((handleClose 3 1006 "" initialState).cameraStatus = "POWERED_OFF") := by
  have h := c6_close_schedules_reconnect 3 1006 "" initialState
  have h4 := (h.2.2.2 (handleClose 3 1006 "" initialState) Relation.ReflTransGen.refl).1
  exact ⟨h.1, h4, h.2.2.1⟩

/-- C7 counterexample: a command issued while the socket is not open
(here: CLOSED) leaves a previously surfaced server-error notice in
place, contradicting the claim that issuing a command clears it in every
connection state. -/
theorem c7_counterexample :
    ((sendCommand "power_on" []
        { initialState with serverError := some "boom", wsReadyState := ReadyState.CLOSED }
      ).state.serverError = some "boom") ∧
    ((sendCommand "power_on" []
        { initialState with serverError := some "boom", wsReadyState := ReadyState.CLOSED }
      ).state.serverError ≠ none) := by
  refine ⟨?_, ?_⟩ <;> decide

/-- C7 amended: a command issued through `sendCommand` clears any
previously surfaced server-error notice when the socket is open; issued
in any other connection state, the call transmits nothing and leaves the
error notice unchanged. -/
theorem c7_send_clears_error_only_when_open (s : AppState) (cmd : String)
    (ps : List (String × JsonVal)) :
    (s.wsReadyState = ReadyState.OPEN →
      (sendCommand cmd ps s).state.serverError = none) ∧
    (s.wsReadyState ≠ ReadyState.OPEN →
      (sendCommand cmd ps s).state.serverError = s.serverError) := by
  constructor <;> intro h <;> simp [sendCommand, h]

/-- Concrete run of amended C7: with the socket open, issuing a command
clears a surfaced error. -/
theorem c7_send_clears_error_only_when_open_witness :
    (sendCommand "get_status" []
        { initialState with wsReadyState := ReadyState.OPEN, serverError := some "E" }
      ).state.serverError = none :=
  (c7_send_clears_error_only_when_open
    { initialState with wsReadyState := ReadyState.OPEN, serverError := some "E" }
    "get_status" []).1 rfl

/-- C8: from any non-recording state, `start(); stop(); start(); stop()`
with no frames in between yields an empty frozen session after each
stop, and each start discards every frame buffered before it, so no
session carries over frames from a previous one. -/
theorem c8_start_stop_sessions (s : AppState) (h : s.isRecording = false) :
    ((handleToggleRecording s).recordedFramesRef = []) ∧
    ((handleToggleRecording (handleToggleRecording s)).recordedFrames = []) ∧
    ((handleToggleRecording (handleToggleRecording s)).isRecording = false) ∧
    ((handleToggleRecording (handleToggleRecording (handleToggleRecording s))).recordedFramesRef = []) ∧
    ((handleToggleRecording (handleToggleRecording (handleToggleRecording
        (handleToggleRecording s)))).recordedFrames = []) ∧
    ((handleToggleRecording (handleToggleRecording (handleToggleRecording
        (handleToggleRecording s)))).isRecording = false) := by
  obtain ⟨a1, a2, a3, a4⟩ := handleToggleRecording_start s h
  obtain ⟨b1, b2, b3, b4⟩ := handleToggleRecording_stop _ a3
  obtain ⟨c1, c2, c3, c4⟩ := handleToggleRecording_start _ b2
  obtain ⟨d1, d2, d3, d4⟩ := handleToggleRecording_stop _ c3
  exact ⟨a1, b1.trans a1, b2, c1, d1.trans c1, d2⟩

/-- Concrete run of C8 from a state with stale buffered frames: both
frozen sessions are empty. -/
theorem c8_start_stop_sessions_witness :
    ((handleToggleRecording (handleToggleRecording
        { initialState with recordedFramesRef := [mkDataUrl "stale"] })).recordedFrames = []) ∧
    ((handleToggleRecording (handleToggleRecording (handleToggleRecording
        (handleToggleRecording
          { initialState with recordedFramesRef := [mkDataUrl "stale"] })))).recordedFrames = []) := by
  have h := c8_start_stop_sessions
    { initialState with recordedFramesRef := [mkDataUrl "stale"] } rfl
  exact ⟨h.2.1, h.2.2.2.2.1⟩

/-- C9: a `sendCommand` call made while the socket is not open transmits
nothing, appends the locally observable cannot-send log notice, changes
nothing else of the state, and leaves no record of the attempted
envelope (the resulting outcome is the same whatever command and
parameters were passed), so no later event can transmit it. -/
theorem c9_send_disconnected_drops (s : AppState) (cmd : String)
    (ps : List (String × JsonVal)) (h : s.wsReadyState ≠ ReadyState.OPEN) :
    ((sendCommand cmd ps s).transmitted = none) ∧
    ((sendCommand cmd ps s).state.logs =
      addLog .app "Cannot send command: WebSocket is not connected." s.logs) ∧
    ((sendCommand cmd ps s).state =
      { s with logs := addLog .app "Cannot send command: WebSocket is not connected." s.logs }) ∧
    (∀ cmd' ps', sendCommand cmd' ps' s = sendCommand cmd ps s) := by
  have he : ∀ (c : String) (p : List (String × JsonVal)),
      sendCommand c p s =
        { state :=
            { s with logs := addLog .app "Cannot send command: WebSocket is not connected." s.logs }
          transmitted := none } := by
    intro c p
    simp [sendCommand, h]
  refine ⟨?_, ?_, ?_, ?_⟩
  · rw [he]
  · rw [he]
  · rw [he]
  · intro cmd' ps'
    rw [he, he]

/-- Concrete run of C9: while still CONNECTING, two different commands
produce the same outcome, with nothing transmitted. -/
theorem c9_send_disconnected_drops_witness :
    ((sendCommand "power_on" [] initialState).transmitted = none) ∧
    (sendCommand "start_stream" [("x", JsonVal.num 1)] initialState
      = sendCommand "power_on" [] initialState) := by
  have h := c9_send_disconnected_drops initialState "power_on" [] (by decide)
  exact ⟨h.1, h.2.2.2 "start_stream" [("x", JsonVal.num 1)]⟩

/-- C10: a `sendCommand` call made while the socket is not open leaves
the last-issued-command record unchanged — `lastCommand` is updated only
when the envelope is actually transmitted. -/
theorem c10_lastCommand_unchanged_when_closed (s : AppState) (cmd : String)
    (ps : List (String × JsonVal)) (h : s.wsReadyState ≠ ReadyState.OPEN) :
    ((sendCommand cmd ps s).transmitted = none) ∧
    ((sendCommand cmd ps s).state.lastCommand = s.lastCommand) := by
  simp [sendCommand, h]

/-- Concrete run of C10: a command issued while CONNECTING leaves the
initial `app_init()` record in place. -/
theorem c10_lastCommand_unchanged_when_closed_witness :
    (sendCommand "power_on" [] initialState).state.lastCommand = "app_init()" :=
  (c10_lastCommand_unchanged_when_closed initialState "power_on" [] (by decide)).2

end QAS
